import Mathlib

/-!
Verification development for the tenant-service query/linkage core of the
`modular` SDK (`modular_sdk/services/tenant_service.py`).

The embedding below translates the service functions directly from the
Python source.  The `Tenant` model class, the `ALLOWED_TENANT_PARENT_MAP_KEYS`
constant, the `default_instance` helper and the abstract store (pynamodb
scan/query/update) live outside the provided sources; those pieces are
modelled from the specification, each marked `Modelled from the spec:` in its
doc comment.
-/

/-! ## Generic association-list (Python `dict`) helpers -/

/-- First binding for key `k` in an association list (Python `d.get(k)` /
`d[k]`; a Python dict has unique keys, so first-binding lookup agrees). -/
def lookupKey {α : Type} : List (String × α) → String → Option α
  | [], _ => none
  | (k0, v0) :: rest, k => if k0 = k then some v0 else lookupKey rest k

/-- Python `k in d`. -/
def containsKey {α : Type} (m : List (String × α)) (k : String) : Bool :=
  (lookupKey m k).isSome

/-- Python `d[k] = v`: replace the first binding of `k` in place, or append a
new binding at the end (dict insertion order). -/
def setKey {α : Type} : List (String × α) → String → α → List (String × α)
  | [], k, v => [(k, v)]
  | (k0, v0) :: rest, k, v =>
      if k0 = k then (k0, v) :: rest else (k0, v0) :: setKey rest k v

/-- Python `d.pop(k, default)` / DynamoDB `REMOVE` of a map key: drop the
first binding of `k`. -/
def eraseKey {α : Type} : List (String × α) → String → List (String × α)
  | [], _ => []
  | (k0, v0) :: rest, k =>
      if k0 = k then rest else (k0, v0) :: eraseKey rest k

/-! ## Data model -/

/-- Modelled from the spec: the Tenant entity record (its model class is not
among the provided sources).  Only the attributes the service functions read
are carried: identity `name`, the `is_active` flag, the management parent id,
the customer id (hash attribute of the customer secondary index), the
directory name `dntl` and `cloud` (hash and range attributes of the
`dntl-c` secondary index), and the `parent_map` linkage map. -/
structure Tenant where
  name : String
  is_active : Bool
  management_parent_id : String
  customer_name : String
  dntl : String
  cloud : String
  parent_map : List (String × String)
deriving DecidableEq, Repr

/-- Modelled from the spec: the Parent entity record, of which the service
reads `parent_id` and the `is_deleted` soft-delete flag. -/
structure Parent where
  parent_id : String
  is_deleted : Bool
deriving DecidableEq, Repr

/-! ## Filter conditions (pynamodb condition expressions) -/

/-- The condition expressions the service builds: attribute-equality leaves
and conjunction (`c1 & c2`). -/
inductive Cond where
  | isActiveEq (b : Bool)
  | mgmtParentIdEq (s : String)
  | nameEq (s : String)
  | cloudEq (s : String)
  | and (c1 c2 : Cond)
deriving DecidableEq, Repr

/-- Modelled from the spec: server-side evaluation of a filter predicate
against a record (leaf comparisons combined with logical AND). -/
def Cond.eval : Cond → Tenant → Bool
  | .isActiveEq b, t => t.is_active = b
  | .mgmtParentIdEq s, t => t.management_parent_id = s
  | .nameEq s, t => t.name = s
  | .cloudEq s, t => t.cloud = s
  | .and c1 c2, t => c1.eval t && c2.eval t

/-- An absent (`None`) condition lets every record through. -/
def condHolds (c : Option Cond) (t : Tenant) : Bool :=
  match c with
  | none => true
  | some c0 => c0.eval t

/-- Python `condition &= d` where `condition` may be `None`: pynamodb defines
`Condition.__rand__` so that `None & d = d`; otherwise it conjoins. -/
def candOpt (c : Option Cond) (d : Cond) : Option Cond :=
  match c with
  | none => some d
  | some c0 => some (Cond.and c0 d)

/-! ## Abstract store: scan / index query with pagination

Modelled from the spec: the store is a list of records in key order; a scan
or index query filters it server-side, resumes after an opaque cursor
(modelled as a drop count into the matching sequence) and truncates a page to
`limit` records.  The `attributes_to_get` projection is performed by the
external store adapter and is not modelled. -/

/-- Page window: resume after the cursor, then bound the page size. -/
def paginate (l : List Tenant) (limit : Option Nat)
    (last_evaluated_key : Option Nat) : List Tenant :=
  let resumed := l.drop (last_evaluated_key.getD 0)
  match limit with
  | none => resumed
  | some n => resumed.take n

/-- Modelled from the spec: `Tenant.scan` — full-table scan with an optional
server-side filter condition. -/
def Tenant.scan (db : List Tenant) (filter_condition : Option Cond)
    (limit : Option Nat) (last_evaluated_key : Option Nat) : List Tenant :=
  paginate (db.filter fun t => condHolds filter_condition t)
    limit last_evaluated_key

/-- Modelled from the spec: `Tenant.customer_name_index.query` — the customer
secondary index, hash attribute = the tenant's customer id. -/
def customer_name_index_query (db : List Tenant) (hash_key : String)
    (filter_condition : Option Cond) (limit : Option Nat)
    (last_evaluated_key : Option Nat) : List Tenant :=
  paginate
    (db.filter fun t =>
      t.customer_name = hash_key && condHolds filter_condition t)
    limit last_evaluated_key

/-- Modelled from the spec: `Tenant.dntl_c_index.query` — the directory-name
secondary index, hash attribute = `dntl`, range attribute = `cloud`; the
range-key condition is evaluated against the record like a filter. -/
def dntl_c_index_query (db : List Tenant) (hash_key : String)
    (range_key_condition : Option Cond) (filter_condition : Option Cond)
    (limit : Option Nat) (last_evaluated_key : Option Nat) : List Tenant :=
  paginate
    (db.filter fun t =>
      t.dntl = hash_key && condHolds range_key_condition t
        && condHolds filter_condition t)
    limit last_evaluated_key

/-! ## TenantService query functions (translated from the source) -/

/-- Source `TenantService.i_scan_tenants`: starts from `condition = None`, conjoins
`Tenant.is_active == True` when `only_active`, then scans. -/
def i_scan_tenants (db : List Tenant) (only_active : Bool)
    (limit : Option Nat) (last_evaluated_key : Option Nat) : List Tenant :=
  let condition : Option Cond := none
  let condition :=
    if only_active then candOpt condition (Cond.isActiveEq true)
    else condition
  Tenant.scan db condition limit last_evaluated_key

/-- Source `TenantService.scan_tenants`: `list(i_scan_tenants(...))`. -/
def scan_tenants (db : List Tenant) (only_active : Bool)
    (limit : Option Nat) (last_evaluated_key : Option Nat) : List Tenant :=
  i_scan_tenants db only_active limit last_evaluated_key

/-- Source `TenantService.i_get_tenant_by_parent_id`:
`condition = active if active is None else (Tenant.is_active == active)`,
and the `management_parent_id == parent_id` conjunct is added only inside
`if condition is not None`. -/
def i_get_tenant_by_parent_id (db : List Tenant) (parent_id : String)
    (active : Option Bool) (limit : Option Nat)
    (last_evaluated_key : Option Nat) : List Tenant :=
  let condition : Option Cond :=
    match active with
    | none => none
    | some a => some (Cond.isActiveEq a)
  let condition : Option Cond :=
    match condition with
    | none => none
    | some c => some (Cond.and c (Cond.mgmtParentIdEq parent_id))
  Tenant.scan db condition limit last_evaluated_key

/-- Modelled from the spec: `default_instance` (from `modular_sdk.commons`,
outside the provided sources) normalises a value that is absent or not of the
expected type to that type's default instance — for strings, the empty
string. -/
def default_instance (value : Option String) : String :=
  match value with
  | none => ""
  | some s => s

/-- Source `TenantService.i_get_tenant_by_customer`: optional `is_active` conjunct,
then `name = default_instance(tenant_name, str)`; a truthy (non-empty) name
adds the `Tenant.name == name` conjunct, composed with the active conjunct
when one exists. -/
def i_get_tenant_by_customer (db : List Tenant) (customer_id : String)
    (active : Option Bool) (tenant_name : Option String)
    (limit : Option Nat) (last_evaluated_key : Option Nat) : List Tenant :=
  let condition : Option Cond :=
    match active with
    | none => none
    | some a => some (Cond.isActiveEq a)
  let name := default_instance tenant_name
  let condition : Option Cond :=
    if condition.isSome && !name.isEmpty then
      candOpt condition (Cond.nameEq name)
    else if !name.isEmpty then
      some (Cond.nameEq name)
    else condition
  customer_name_index_query db customer_id condition limit last_evaluated_key

/-- Modelled from the spec: Python `str.upper()` on one character — cloud
names are ASCII, so lowercase ASCII letters are shifted to uppercase. -/
def upperChar (c : Char) : Char :=
  if c.toNat ≥ 97 && c.toNat ≤ 122 then Char.ofNat (c.toNat - 32) else c

/-- Modelled from the spec: Python `str.upper()` — the case normalisation
applied to the `cloud` argument before comparison. -/
def str_upper (s : String) : String := String.mk (s.data.map upperChar)

/-- Source `TenantService.i_get_by_dntl`: optional `is_active` filter condition; the
optional `cloud` becomes the range-key condition `Tenant.cloud ==
cloud.upper()`. -/
def i_get_by_dntl (db : List Tenant) (dntl : String) (cloud : Option String)
    (active : Option Bool) (limit : Option Nat)
    (last_evaluated_key : Option Nat) : List Tenant :=
  let fc : Option Cond :=
    match active with
    | none => none
    | some a => some (Cond.isActiveEq a)
  let rc : Option Cond :=
    match cloud with
    | none => none
    | some c => some (Cond.cloudEq (str_upper c))
  dntl_c_index_query db dntl rc fc limit last_evaluated_key

/-! ## Linkage mutation protocol (`add_to_parent_map` / `remove_from_parent_map`) -/

/-- The typed failures of the linkage protocol.  In the source all four are a
`ModularException` with the bad-request code, distinguished by message; the
constructors carry the data interpolated into each message. -/
inductive ModularError where
  | invalidLinkageType (type_ : String)
  | entityInactive (name : String)
  | targetDeleted (parentId : String)
  | linkageAlreadySet (name type_ : String)
deriving DecidableEq, Repr

/-- The update actions the service can issue against the store:
`Tenant.parent_map.set(m)` and `Tenant.parent_map[k].remove()`. -/
inductive UpdateAction where
  | setParentMap (m : List (String × String))
  | removeParentMapKey (k : String)
deriving DecidableEq, Repr

/-- Modelled from the spec: how the abstract store applies one update action
to the stored linkage map of the entity.  `set` replaces the whole map
attribute; `remove` deletes the one addressed key (deleting an absent key is
a store-level no-op). -/
def UpdateAction.applyTo : UpdateAction → List (String × String) →
    List (String × String)
  | .setParentMap m, _ => m
  | .removeParentMapKey k, stored => eraseKey stored k

/-- All issued actions applied in order to the stored linkage map. -/
def applyActions (acts : List UpdateAction)
    (stored : List (String × String)) : List (String × String) :=
  acts.foldl (fun s a => a.applyTo s) stored

/-- Modelled from the spec: the allow-list of linkage-type strings.
`ALLOWED_TENANT_PARENT_MAP_KEYS` lives in `modular_sdk.commons.constants`,
outside the provided sources; the spec's scenarios name `TENANT_MANAGER`. -/
def ALLOWED_TENANT_PARENT_MAP_KEYS : List String := ["TENANT_MANAGER"]

/-- Result of a linkage mutation: the optional raised `ModularException`, the
(possibly updated) in-memory tenant, and the update actions issued to the
store before returning or raising. -/
structure AttachResult where
  error : Option ModularError
  tenant : Tenant
  actions : List UpdateAction
deriving DecidableEq, Repr

/-- Source `TenantService.add_to_parent_map`, translated check for check: allow-list
membership, tenant activity, parent soft-deletion, slot freedom; on success
the local copy of the map gains `type_ -> parent.parent_id` and the one
issued action is `Tenant.parent_map.set(parent_map)` — a whole-map set, per
the source comment about partial updates failing when the map attribute does
not yet exist in the store. -/
def add_to_parent_map (tenant : Tenant) (parent : Parent)
    (type_ : String) : AttachResult :=
  if type_ ∉ ALLOWED_TENANT_PARENT_MAP_KEYS then
    ⟨some (ModularError.invalidLinkageType type_), tenant, []⟩
  else if !tenant.is_active then
    ⟨some (ModularError.entityInactive tenant.name), tenant, []⟩
  else if parent.is_deleted then
    ⟨some (ModularError.targetDeleted parent.parent_id), tenant, []⟩
  else
    let parent_map := tenant.parent_map
    if containsKey parent_map type_ then
      ⟨some (ModularError.linkageAlreadySet tenant.name type_), tenant, []⟩
    else
      let parent_map := setKey parent_map type_ parent.parent_id
      ⟨none, { tenant with parent_map := parent_map },
        [UpdateAction.setParentMap parent_map]⟩

/-- Source `TenantService.remove_from_parent_map`: inactive tenant — lenient no-op,
no action issued; otherwise issue `Tenant.parent_map[type_].remove()` (the
in-memory tenant reflects the removal, as `update` refreshes it). -/
def remove_from_parent_map (tenant : Tenant) (type_ : String) :
    Tenant × List UpdateAction :=
  if !tenant.is_active then
    (tenant, [])
  else
    ({ tenant with parent_map := eraseKey tenant.parent_map type_ },
      [UpdateAction.removeParentMapKey type_])

/-! ## JSON values and the `get_dto` projection -/

/-- JSON values, for the dict produced by `tenant.get_json()`. -/
inductive JVal where
  | null
  | bool (b : Bool)
  | str (s : String)
  | num (n : Int)
  | arr (elems : List JVal)
  | obj (fields : List (String × JVal))

/-- Python `x == False` on a JSON value: `False` itself, and (Python bool/int
equality) the number `0`. -/
def pyEqFalse : Option JVal → Bool
  | some (JVal.bool false) => true
  | some (JVal.num n) => n = 0
  | _ => false

/-- One step of the source's list comprehension: keep `each['maestro_name']`
when `'maestro_name' in each and each.get('is_active') != False`; non-dict
entries carry no `maestro_name`. -/
def regionName : JVal → Option JVal
  | JVal.obj fields =>
      match lookupKey fields "maestro_name" with
      | some v =>
          if pyEqFalse (lookupKey fields "is_active") then none else some v
      | none => none
  | _ => none

/-- Source `TenantService.get_dto`, as a transform of the `tenant.get_json()` dict:
`regions = tenant_json.get('regions') or []` (absent, null and other falsy
values collapse to the empty list; `get_json` serialises `regions` as an
array when present), `tenant_json['account_id'] =
tenant_json.pop('project', None)`, then the filtered comprehension is stored
back under `'regions'`. -/
def get_dto (tenant_json : List (String × JVal)) : List (String × JVal) :=
  let regions : List JVal :=
    match lookupKey tenant_json "regions" with
    | some (JVal.arr l) => l
    | _ => []
  let j1 := setKey (eraseKey tenant_json "project") "account_id"
    ((lookupKey tenant_json "project").getD JVal.null)
  setKey j1 "regions" (JVal.arr (regions.filterMap regionName))

/-- A region entry whose activity flag is boolean, null or absent — the shape
`get_json` produces for a serialised boolean attribute. -/
def flagOkEntry : JVal → Bool
  | JVal.obj fields =>
      match lookupKey fields "is_active" with
      | none => true
      | some JVal.null => true
      | some (JVal.bool _) => true
      | some _ => false
  | _ => true

/-! ## Concrete sample records (used to instantiate the theorems) -/

/-- An active tenant with an empty linkage map. -/
def tAct : Tenant := ⟨"t-act", true, "p-mgmt", "cust-1", "corp-unit-1", "AWS", []⟩

/-- An inactive tenant whose linkage map already holds a non-allow-listed
key. -/
def tInact : Tenant :=
  ⟨"t-inact", false, "p-mgmt", "cust-1", "corp-unit-1", "AWS",
    [("BAD_TYPE", "X-1")]⟩

/-- An active tenant whose management parent id is `OTHER-PARENT`. -/
def tOther : Tenant :=
  ⟨"t-other", true, "OTHER-PARENT", "cust-1", "corp-unit-1", "AWS", []⟩

/-- A non-deleted parent. -/
def p0 : Parent := ⟨"P-1", false⟩

/-- A soft-deleted parent. -/
def pDel : Parent := ⟨"P-2", true⟩

/-- Sample regions: explicit `true` flag, explicit `false` flag, absent
flag. -/
def rsSample : List JVal :=
  [JVal.obj [("maestro_name", JVal.str "r-true"), ("is_active", JVal.bool true)],
   JVal.obj [("maestro_name", JVal.str "r-false"), ("is_active", JVal.bool false)],
   JVal.obj [("maestro_name", JVal.str "r-absent")]]

/-- A sample `get_json()` dict with a `project` value and the sample
regions. -/
def jSample : List (String × JVal) :=
  [("name", JVal.str "t-act"), ("project", JVal.str "proj-1"),
   ("regions", JVal.arr rsSample)]

/-! ## Helper lemmas -/

theorem lookup_setKey_self {α : Type} (m : List (String × α)) (k : String)
    (v : α) : lookupKey (setKey m k v) k = some v := by
  induction m with
  | nil => simp [setKey, lookupKey]
  | cons hd tl ih =>
      obtain ⟨k0, v0⟩ := hd
      by_cases hk : k0 = k
      · simp [setKey, lookupKey, hk]
      · simp [setKey, lookupKey, hk, ih]

theorem lookup_setKey_ne {α : Type} (m : List (String × α)) (k kq : String)
    (v : α) (hk : kq ≠ k) :
    lookupKey (setKey m k v) kq = lookupKey m kq := by
  induction m with
  | nil => simp [setKey, lookupKey, Ne.symm hk]
  | cons hd tl ih =>
      obtain ⟨k0, v0⟩ := hd
      by_cases h0 : k0 = k
      · subst h0
        simp [setKey, lookupKey, Ne.symm hk]
      · simp [setKey, lookupKey, h0, ih]

theorem lookup_none_of_not_mem_keys {α : Type} (m : List (String × α))
    (k : String) (h : k ∉ m.map Prod.fst) : lookupKey m k = none := by
  induction m with
  | nil => simp [lookupKey]
  | cons hd tl ih =>
      obtain ⟨k0, v0⟩ := hd
      simp only [List.map_cons, List.mem_cons, not_or] at h
      simp [lookupKey, Ne.symm h.1, ih h.2]

theorem lookup_eraseKey_self {α : Type} (m : List (String × α)) (k : String)
    (hnd : (m.map Prod.fst).Nodup) : lookupKey (eraseKey m k) k = none := by
  induction m with
  | nil => simp [eraseKey, lookupKey]
  | cons hd tl ih =>
      obtain ⟨k0, v0⟩ := hd
      simp only [List.map_cons, List.nodup_cons] at hnd
      by_cases hk : k0 = k
      · subst hk
        simpa [eraseKey] using lookup_none_of_not_mem_keys tl k0 hnd.1
      · simp [eraseKey, lookupKey, hk, ih hnd.2]

theorem mem_paginate {t : Tenant} {l : List Tenant} {lim k : Option Nat}
    (h : t ∈ paginate l lim k) : t ∈ l := by
  simp only [paginate] at h
  cases lim with
  | none => exact List.drop_subset _ _ h
  | some n => exact List.drop_subset _ _ (List.take_subset _ _ h)

theorem condHolds_of_mem_scan {t : Tenant} {db : List Tenant}
    {c : Option Cond} {lim k : Option Nat}
    (h : t ∈ Tenant.scan db c lim k) : condHolds c t = true := by
  have h2 : t ∈ db.filter fun s => condHolds c s :=
    mem_paginate (by simpa [Tenant.scan] using h)
  exact (List.mem_filter.mp h2).2

theorem mem_customer_query {t : Tenant} {db : List Tenant} {hk : String}
    {c : Option Cond} {lim k : Option Nat}
    (h : t ∈ customer_name_index_query db hk c lim k) :
    t.customer_name = hk ∧ condHolds c t = true := by
  have h2 : t ∈ db.filter fun s =>
      s.customer_name = hk && condHolds c s :=
    mem_paginate (by simpa [customer_name_index_query] using h)
  have h3 := (List.mem_filter.mp h2).2
  simpa [Bool.and_eq_true] using h3

theorem mem_dntl_query {t : Tenant} {db : List Tenant} {hk : String}
    {rc fc : Option Cond} {lim k : Option Nat}
    (h : t ∈ dntl_c_index_query db hk rc fc lim k) :
    t.dntl = hk ∧ condHolds rc t = true ∧ condHolds fc t = true := by
  have h2 : t ∈ db.filter fun s =>
      s.dntl = hk && condHolds rc s && condHolds fc s :=
    mem_paginate (by simpa [dntl_c_index_query] using h)
  have h3 := (List.mem_filter.mp h2).2
  simpa [Bool.and_eq_true, and_assoc] using h3

/-! ## Claim theorems -/

/-- C5: for every linkage type not in the allow-list, `add_to_parent_map`
fails with the invalid-linkage-type error before any other precondition
check (regardless of tenant activity, parent deletion or current map
contents), leaves the tenant unchanged and issues no store update. -/
theorem attach_invalid_linkage_type_first (t : Tenant) (p : Parent)
    (ty : String) (h : ty ∉ ALLOWED_TENANT_PARENT_MAP_KEYS) :
    add_to_parent_map t p ty =
      ⟨some (ModularError.invalidLinkageType ty), t, []⟩ := by
  simp [add_to_parent_map, h]

/-- C5 witness: an inactive tenant whose map already holds the bad key and a
deleted parent still fail with the invalid-linkage-type error. -/
theorem attach_invalid_linkage_type_first_witness :
    "BAD_TYPE" ∉ ALLOWED_TENANT_PARENT_MAP_KEYS ∧
    add_to_parent_map tInact pDel "BAD_TYPE" =
      ⟨some (ModularError.invalidLinkageType "BAD_TYPE"), tInact, []⟩ :=
  ⟨by decide, attach_invalid_linkage_type_first tInact pDel "BAD_TYPE" (by decide)⟩

/-- C6: detach on an inactive tenant is a lenient no-op — it returns the
tenant unchanged with no update issued, never errors, and iterating it any
number of times leaves the tenant (hence its linkage map) identical. -/
theorem detach_inactive_idempotent (t : Tenant) (ty : String) (n : Nat)
    (h : t.is_active = false) :
    remove_from_parent_map t ty = (t, []) ∧
    (fun s => (remove_from_parent_map s ty).1)^[n] t = t := by
  have h1 : remove_from_parent_map t ty = (t, []) := by
    simp [remove_from_parent_map, h]
  refine ⟨h1, Function.iterate_fixed ?_ n⟩
  show (remove_from_parent_map t ty).1 = t
  rw [h1]

/-- C6 witness: three detaches of an inactive tenant leave it untouched. -/
theorem detach_inactive_idempotent_witness :
    tInact.is_active = false ∧
    remove_from_parent_map tInact "TENANT_MANAGER" = (tInact, []) ∧
    (fun s => (remove_from_parent_map s "TENANT_MANAGER").1)^[3] tInact =
      tInact :=
  ⟨rfl, detach_inactive_idempotent tInact "TENANT_MANAGER" 3 rfl⟩

/-- C4: if an attach succeeds, attaching the same linkage type again (same
parent, no intervening detach) fails with the linkage-already-set error; the
failed call returns the tenant exactly as the first call left it and issues
no store update. -/
theorem attach_twice_linkage_already_set (t : Tenant) (p : Parent)
    (ty : String) (h : (add_to_parent_map t p ty).error = none) :
    add_to_parent_map (add_to_parent_map t p ty).tenant p ty =
      ⟨some (ModularError.linkageAlreadySet
          (add_to_parent_map t p ty).tenant.name ty),
        (add_to_parent_map t p ty).tenant, []⟩ := by
  by_cases h1 : ty ∈ ALLOWED_TENANT_PARENT_MAP_KEYS
  · by_cases h2 : t.is_active = true
    · by_cases h3 : p.is_deleted = true
      · simp [add_to_parent_map, h1, h2, h3] at h
      · by_cases h4 : (lookupKey t.parent_map ty).isSome = true
        · simp [add_to_parent_map, containsKey, h1, h2, h3, h4] at h
        · simp [add_to_parent_map, containsKey, h1, h2, h3, h4,
            lookup_setKey_self]
    · simp [add_to_parent_map, h1, h2] at h
  · simp [add_to_parent_map, h1] at h

/-- C4 witness: a concrete second attach of `TENANT_MANAGER` fails with the
linkage-already-set error and changes nothing. -/
theorem attach_twice_linkage_already_set_witness :
    (add_to_parent_map tAct p0 "TENANT_MANAGER").error = none ∧
    add_to_parent_map (add_to_parent_map tAct p0 "TENANT_MANAGER").tenant p0
        "TENANT_MANAGER" =
      ⟨some (ModularError.linkageAlreadySet
          (add_to_parent_map tAct p0 "TENANT_MANAGER").tenant.name
          "TENANT_MANAGER"),
        (add_to_parent_map tAct p0 "TENANT_MANAGER").tenant, []⟩ :=
  ⟨by decide, attach_twice_linkage_already_set tAct p0 "TENANT_MANAGER"
    (by decide)⟩

/-- C1 counterexample: a successful attach on a tenant with an empty
in-memory linkage map issues an update that, applied to a stored map holding
the unrelated key `K`, does not leave that key as stored — the update is not
single-key. -/
theorem attach_not_single_key_cex :
    (add_to_parent_map tAct p0 "TENANT_MANAGER").error = none ∧
    "K" ≠ "TENANT_MANAGER" ∧
    lookupKey (applyActions (add_to_parent_map tAct p0 "TENANT_MANAGER").actions
      [("K", "stored")]) "K" ≠ lookupKey [("K", "stored")] "K" := by
  refine ⟨by decide, by decide, by decide⟩

/-- C1 (amended): a successful attach issues exactly one whole-map set action
carrying the in-memory map extended with the new linkage; applying it
replaces the stored linkage map entirely, independent of what was stored —
a read-modify-write of the whole map, so a concurrent write to a different
linkage-type key can be overwritten. -/
theorem attach_whole_map_set (t : Tenant) (p : Parent) (ty : String)
    (h : (add_to_parent_map t p ty).error = none) :
    (add_to_parent_map t p ty).actions =
      [UpdateAction.setParentMap (setKey t.parent_map ty p.parent_id)] ∧
    ∀ stored, applyActions (add_to_parent_map t p ty).actions stored =
      setKey t.parent_map ty p.parent_id := by
  by_cases h1 : ty ∈ ALLOWED_TENANT_PARENT_MAP_KEYS
  · by_cases h2 : t.is_active = true
    · by_cases h3 : p.is_deleted = true
      · simp [add_to_parent_map, h1, h2, h3] at h
      · by_cases h4 : (lookupKey t.parent_map ty).isSome = true
        · simp [add_to_parent_map, containsKey, h1, h2, h3, h4] at h
        · simp [add_to_parent_map, containsKey, h1, h2, h3, h4, applyActions,
            UpdateAction.applyTo]
    · simp [add_to_parent_map, h1, h2] at h
  · simp [add_to_parent_map, h1] at h

/-- C1 witness: the concrete successful attach issues the whole-map set and
overwrites a stored map that held the unrelated key `K`. -/
theorem attach_whole_map_set_witness :
    (add_to_parent_map tAct p0 "TENANT_MANAGER").error = none ∧
    (add_to_parent_map tAct p0 "TENANT_MANAGER").actions =
      [UpdateAction.setParentMap
        (setKey tAct.parent_map "TENANT_MANAGER" p0.parent_id)] ∧
    applyActions (add_to_parent_map tAct p0 "TENANT_MANAGER").actions
        [("K", "w")] =
      setKey tAct.parent_map "TENANT_MANAGER" p0.parent_id :=
  ⟨by decide,
    (attach_whole_map_set tAct p0 "TENANT_MANAGER" (by decide)).1,
    (attach_whole_map_set tAct p0 "TENANT_MANAGER" (by decide)).2 [("K", "w")]⟩

/-- C2 (code bug): with the `active` argument absent, the by-parent-id query
builds no predicate at all — the parent-id conjunct is dropped, and a tenant
whose management parent id differs from the requested one is returned. -/
theorem by_parent_id_drops_filter_when_active_none :
    tOther ∈ i_get_tenant_by_parent_id [tOther] "p1" none none none ∧
    tOther.management_parent_id ≠ "p1" := by
  refine ⟨by decide, by decide⟩

/-- C3: a scan built with the active-only flag set returns only tenants whose
`is_active` flag is true, through both `scan_tenants` and
`i_scan_tenants`. -/
theorem scan_tenants_only_active_sound (db : List Tenant)
    (limit last_evaluated_key : Option Nat) (t : Tenant)
    (h : t ∈ scan_tenants db true limit last_evaluated_key ∨
         t ∈ i_scan_tenants db true limit last_evaluated_key) :
    t.is_active = true := by
  have hm : t ∈ i_scan_tenants db true limit last_evaluated_key := by
    cases h with
    | inl h0 => simpa [scan_tenants] using h0
    | inr h0 => exact h0
  have hc := condHolds_of_mem_scan
    (by simpa [i_scan_tenants, candOpt] using hm)
  simpa [condHolds, Cond.eval] using hc

/-- C3 witness: the inactive sample tenant is absent from an active-only scan
of a two-tenant table, while the active one is returned and is active. -/
theorem scan_tenants_only_active_sound_witness :
    tAct ∈ scan_tenants [tAct, tInact] true none none ∧
    tInact ∉ scan_tenants [tAct, tInact] true none none ∧
    tAct.is_active = true :=
  ⟨by decide, by decide,
    scan_tenants_only_active_sound [tAct, tInact] none none tAct
      (Or.inl (by decide))⟩

/-- C8: an absent or empty tenant-name filter contributes no name conjunct to
the by-customer query (the query equals the one with only the optional
active conjunct), while a non-empty name composes the name-equality conjunct
with the active conjunct: every returned record matches the customer hash
key, the requested name and the active condition. -/
theorem by_customer_empty_name_no_filter (db : List Tenant) (cid : String)
    (active : Option Bool) (limit last_evaluated_key : Option Nat) :
    i_get_tenant_by_customer db cid active none limit last_evaluated_key =
      customer_name_index_query db cid (Option.map Cond.isActiveEq active)
        limit last_evaluated_key ∧
    i_get_tenant_by_customer db cid active (some "") limit
        last_evaluated_key =
      customer_name_index_query db cid (Option.map Cond.isActiveEq active)
        limit last_evaluated_key ∧
    ∀ nm t, nm.isEmpty = false →
      t ∈ i_get_tenant_by_customer db cid active (some nm) limit
        last_evaluated_key →
      t.customer_name = cid ∧ t.name = nm ∧
        condHolds (Option.map Cond.isActiveEq active) t = true := by
  refine ⟨?_, ?_, ?_⟩
  · cases active <;> rfl
  · cases active <;> rfl
  · intro nm t hnm ht
    cases active with
    | none =>
        have ht2 : t ∈ customer_name_index_query db cid
            (some (Cond.nameEq nm)) limit last_evaluated_key := by
          simpa [i_get_tenant_by_customer, default_instance, hnm] using ht
        have h2 := mem_customer_query ht2
        have h3 := h2.2
        simp only [condHolds, Cond.eval, decide_eq_true_eq] at h3
        exact ⟨h2.1, h3, by simp [condHolds]⟩
    | some a =>
        have ht2 : t ∈ customer_name_index_query db cid
            (some (Cond.and (Cond.isActiveEq a) (Cond.nameEq nm))) limit
            last_evaluated_key := by
          simpa [i_get_tenant_by_customer, default_instance, hnm, candOpt]
            using ht
        have h2 := mem_customer_query ht2
        have h3 := h2.2
        simp only [condHolds, Cond.eval, Bool.and_eq_true,
          decide_eq_true_eq] at h3
        exact ⟨h2.1, h3.2, by simp [condHolds, Cond.eval, h3.1]⟩

/-- C8 witness: with an active conjunct and the concrete name `t-act`, the
returned record matches the customer, the name and the active condition. -/
theorem by_customer_empty_name_no_filter_witness :
    i_get_tenant_by_customer [tAct] "cust-1" (some true) none none none =
      customer_name_index_query [tAct] "cust-1"
        (Option.map Cond.isActiveEq (some true)) none none ∧
    tAct.customer_name = "cust-1" ∧ tAct.name = "t-act" ∧
      condHolds (Option.map Cond.isActiveEq (some true)) tAct = true :=
  ⟨(by_customer_empty_name_no_filter [tAct] "cust-1" (some true)
      none none).1,
    (by_customer_empty_name_no_filter [tAct] "cust-1" (some true)
      none none).2.2 "t-act" tAct (by decide) (by decide)⟩

/-- C9: a directory-name query with a supplied cloud uppercases it and uses
it as the range-key equality — every returned record has the requested
directory name and the uppercased cloud; with no cloud supplied, no range
condition is applied. -/
theorem by_dntl_cloud_uppercased (db : List Tenant) (dn c : String)
    (active : Option Bool) (limit last_evaluated_key : Option Nat) :
    (∀ t, t ∈ i_get_by_dntl db dn (some c) active limit last_evaluated_key →
      t.dntl = dn ∧ t.cloud = str_upper c) ∧
    i_get_by_dntl db dn none active limit last_evaluated_key =
      dntl_c_index_query db dn none (Option.map Cond.isActiveEq active)
        limit last_evaluated_key := by
  constructor
  · intro t ht
    have ht2 : t ∈ dntl_c_index_query db dn
        (some (Cond.cloudEq (str_upper c)))
        (Option.map Cond.isActiveEq active) limit last_evaluated_key := by
      cases active <;> simpa [i_get_by_dntl] using ht
    have h2 := mem_dntl_query ht2
    have h3 := h2.2.1
    simp only [condHolds, Cond.eval, decide_eq_true_eq] at h3
    exact ⟨h2.1, h3⟩
  · cases active <;> rfl

/-- C9 witness: querying directory name `corp-unit-1` with cloud `aws`
returns the sample tenant, whose cloud equals the uppercased `AWS`. -/
theorem by_dntl_cloud_uppercased_witness :
    tAct ∈ i_get_by_dntl [tAct] "corp-unit-1" (some "aws") none none none ∧
    tAct.dntl = "corp-unit-1" ∧ tAct.cloud = str_upper "aws" :=
  ⟨by decide,
    (by_dntl_cloud_uppercased [tAct] "corp-unit-1" "aws" none none none).1
      tAct (by decide)⟩

theorem get_dto_account_id (j : List (String × JVal)) :
    lookupKey (get_dto j) "account_id" =
      some ((lookupKey j "project").getD JVal.null) := by
  simp only [get_dto]
  rw [lookup_setKey_ne _ "regions" "account_id" _ (by decide)]
  exact lookup_setKey_self _ _ _

theorem get_dto_project_none (j : List (String × JVal))
    (hnd : (j.map Prod.fst).Nodup) :
    lookupKey (get_dto j) "project" = none := by
  simp only [get_dto]
  rw [lookup_setKey_ne _ "regions" "project" _ (by decide),
    lookup_setKey_ne _ "account_id" "project" _ (by decide)]
  exact lookup_eraseKey_self j "project" hnd

theorem get_dto_regions (j : List (String × JVal)) (rs : List JVal)
    (hr : lookupKey j "regions" = some (JVal.arr rs)) :
    lookupKey (get_dto j) "regions" =
      some (JVal.arr (rs.filterMap regionName)) := by
  simp only [get_dto, hr]
  exact lookup_setKey_self _ _ _

theorem get_dto_regions_default (j : List (String × JVal))
    (h : lookupKey j "regions" = none ∨
         lookupKey j "regions" = some JVal.null) :
    lookupKey (get_dto j) "regions" = some (JVal.arr []) := by
  cases h with
  | inl h0 =>
      simp only [get_dto, h0, List.filterMap_nil]
      exact lookup_setKey_self _ _ _
  | inr h0 =>
      simp only [get_dto, h0, List.filterMap_nil]
      exact lookup_setKey_self _ _ _

theorem regionName_eq_some (e v : JVal) (hf : flagOkEntry e = true) :
    regionName e = some v ↔
      ∃ fields, e = JVal.obj fields ∧
        lookupKey fields "maestro_name" = some v ∧
        lookupKey fields "is_active" ≠ some (JVal.bool false) := by
  cases e with
  | obj fields =>
      have hfo : flagOkEntry (JVal.obj fields) = true := hf
      simp only [flagOkEntry] at hfo
      cases hm : lookupKey fields "maestro_name" with
      | none => simp [regionName, hm]
      | some w =>
          cases ha : lookupKey fields "is_active" with
          | none =>
              simp [regionName, hm, ha,
                show pyEqFalse none = false from rfl]
          | some x =>
              rw [ha] at hfo
              cases x with
              | null =>
                  simp [regionName, hm, ha,
                    show pyEqFalse (some JVal.null) = false from rfl]
              | bool b =>
                  cases b with
                  | true =>
                      simp [regionName, hm, ha,
                        show pyEqFalse (some (JVal.bool true)) = false from
                          rfl]
                  | false =>
                      simp [regionName, hm, ha,
                        show pyEqFalse (some (JVal.bool false)) = true from
                          rfl]
              | str s => simp at hfo
              | num n => simp at hfo
              | arr l => simp at hfo
              | obj l => simp at hfo
  | null => simp [regionName]
  | bool b => simp [regionName]
  | str s => simp [regionName]
  | num n => simp [regionName]
  | arr l => simp [regionName]

/-- C7: the projection renames the internal `project` attribute to the
external key `account_id` (the old key disappears), and the output regions
list consists exactly of the display names of region entries that carry a
`maestro_name` and whose activity flag is not explicitly `false` — flag
`true` and flag absent/null are included, explicit `false` is excluded
(flags are boolean-or-absent, as serialised from the model). -/
theorem get_dto_rename_and_region_tristate (j : List (String × JVal))
    (rs : List JVal) (hnd : (j.map Prod.fst).Nodup)
    (hr : lookupKey j "regions" = some (JVal.arr rs))
    (hf : rs.all flagOkEntry = true) :
    lookupKey (get_dto j) "account_id" =
      some ((lookupKey j "project").getD JVal.null) ∧
    lookupKey (get_dto j) "project" = none ∧
    ∃ names, lookupKey (get_dto j) "regions" = some (JVal.arr names) ∧
      ∀ v, v ∈ names ↔
        ∃ fields, JVal.obj fields ∈ rs ∧
          lookupKey fields "maestro_name" = some v ∧
          lookupKey fields "is_active" ≠ some (JVal.bool false) := by
  refine ⟨get_dto_account_id j, get_dto_project_none j hnd,
    rs.filterMap regionName, get_dto_regions j rs hr, ?_⟩
  intro v
  constructor
  · intro hv
    obtain ⟨e, he, hev⟩ := List.mem_filterMap.mp hv
    have hfe : flagOkEntry e = true := List.all_eq_true.mp hf e he
    obtain ⟨fields, heq, hm, ha⟩ := (regionName_eq_some e v hfe).mp hev
    subst heq
    exact ⟨fields, he, hm, ha⟩
  · rintro ⟨fields, hin, hm, ha⟩
    have hfe : flagOkEntry (JVal.obj fields) = true :=
      List.all_eq_true.mp hf _ hin
    exact List.mem_filterMap.mpr
      ⟨JVal.obj fields, hin,
        (regionName_eq_some _ v hfe).mpr ⟨fields, rfl, hm, ha⟩⟩

/-- C7 witness: on the sample dict the projection moves `proj-1` under
`account_id` and drops the `project` key. -/
theorem get_dto_rename_and_region_tristate_witness :
    (jSample.map Prod.fst).Nodup ∧
    lookupKey (get_dto jSample) "account_id" =
      some ((lookupKey jSample "project").getD JVal.null) ∧
    lookupKey (get_dto jSample) "project" = none :=
  ⟨by decide,
    (get_dto_rename_and_region_tristate jSample rsSample (by decide) rfl
      rfl).1,
    (get_dto_rename_and_region_tristate jSample rsSample (by decide) rfl
      rfl).2.1⟩

/-- C10: the projection is total on missing optional fields — a dict with no
`regions` key or a null one projects to an empty regions list, and a dict
with no `project` key projects to a null `account_id`; being a total
function, it raises no error in either case. -/
theorem get_dto_total_defaults (j : List (String × JVal)) :
    ((lookupKey j "regions" = none ∨ lookupKey j "regions" = some JVal.null) →
      lookupKey (get_dto j) "regions" = some (JVal.arr [])) ∧
    (lookupKey j "project" = none →
      lookupKey (get_dto j) "account_id" = some JVal.null) := by
  constructor
  · exact get_dto_regions_default j
  · intro h
    rw [get_dto_account_id j, h]
    rfl

/-- C10 witness: a dict with neither key projects to an empty regions list
and a null account id. -/
theorem get_dto_total_defaults_witness :
    lookupKey [(("name" : String), JVal.str "x")] "regions" = none ∧
    lookupKey (get_dto [(("name" : String), JVal.str "x")]) "regions" =
      some (JVal.arr []) ∧
    lookupKey (get_dto [(("name" : String), JVal.str "x")]) "account_id" =
      some JVal.null :=
  ⟨rfl,
    (get_dto_total_defaults _).1 (Or.inl rfl),
    (get_dto_total_defaults _).2 rfl⟩
